import Mathlib

/-!
Verification of the density-grid aggregation core.

Shallow embedding of `src/app/api/density-grid/route.ts` (the `GET` handler):
the bounds registry `CITY_BOUNDS`, the spatial binning arithmetic, the per-cell
aggregation fold, the finalization/sorting pass, and the handler's
validation/response logic.

Numbers from the source are modelled as exact rationals (`ℚ`).  JavaScript's
`NaN` behaviour, where a claim depends on it, is modelled separately with
`Option`-valued arithmetic in the `Js` namespace below (`none` = `NaN`).
The JS `Map` keyed by the template string that interpolates the two integer
cell indices is modelled as an insertion-ordered list of cells looked up by
the index pair: on integers the key template is injective, so the two
representations coincide.  `processingTimeMs` (wall-clock time) and the
progress/console logging are not modelled.
-/

set_option autoImplicit false

namespace DensityGrid

/-- Rectangular geographic bounds for a city,
mirroring `interface CityBounds` in the route. -/
structure CityBounds where
  north : ℚ
  south : ℚ
  east : ℚ
  west : ℚ
  deriving DecidableEq

/-- The static bounds registry `CITY_BOUNDS` of the route:
`sevilla`, `madrid`, `barcelona`; any other key is absent. -/
def CITY_BOUNDS : String → Option CityBounds
  | "sevilla" => some { north := 37.45, south := 37.32, east := -5.85, west := -6.05 }
  | "madrid" => some { north := 40.50, south := 40.35, east := -3.60, west := -3.80 }
  | "barcelona" => some { north := 41.45, south := 41.32, east := 2.25, west := 2.05 }
  | _ => none

/-- One row fetched from the `building_density` table.  The route selects
`latitude, longitude, total_apartments, current_use, beginning_year`
(plus `municipality`, which the aggregation never reads).
`latitude`/`longitude` are non-null by the query's filters; the other three
columns are nullable, modelled with `Option`. -/
structure Building where
  latitude : ℚ
  longitude : ℚ
  total_apartments : Option ℚ
  current_use : Option String
  beginning_year : Option ℚ
  deriving DecidableEq

/-- One grid cell, mirroring `interface GridCell` in the route. -/
structure GridCell where
  x : ℤ
  y : ℤ
  centerLat : ℚ
  centerLng : ℚ
  buildingCount : ℕ
  totalApartments : ℚ
  avgApartments : ℚ
  avgConstructionYear : Option ℚ
  residentialCount : ℕ
  densityScore : ℚ
  deriving DecidableEq

/-- JS `Math.floor` on an exact rational (kernel-computable form of `⌊·⌋`). -/
def jsFloor (q : ℚ) : ℤ := q.floor

/-- JS `Math.round` on an exact rational: JavaScript rounds half toward `+∞`,
which on rationals is `⌊q + 1/2⌋`. -/
def jsRound (q : ℚ) : ℚ := (jsFloor (q + 1/2) : ℤ)

/-- Rounding to one decimal place via `Math.round(q * 10) / 10`
(route line 198). -/
def jsRound1 (q : ℚ) : ℚ := (jsFloor (q * 10 + 1/2) : ℤ) / 10

/-- Step `latStep = (bounds.north - bounds.south) / gridSize` (route line 124). -/
def latStep (bounds : CityBounds) (gridSize : ℤ) : ℚ :=
  (bounds.north - bounds.south) / gridSize

/-- Step `lngStep = (bounds.east - bounds.west) / gridSize` (route line 125). -/
def lngStep (bounds : CityBounds) (gridSize : ℤ) : ℚ :=
  (bounds.east - bounds.west) / gridSize

/-- Index `xIndex = Math.min(Math.floor((lng - bounds.west) / lngStep), gridSize - 1)`
(route line 137).  NOTE: the source has no lower clamp to `0`. -/
def xIndex (bounds : CityBounds) (gridSize : ℤ) (lng : ℚ) : ℤ :=
  min (jsFloor ((lng - bounds.west) / lngStep bounds gridSize)) (gridSize - 1)

/-- Index `yIndex = Math.min(Math.floor((lat - bounds.south) / latStep), gridSize - 1)`
(route line 138).  NOTE: the source has no lower clamp to `0`. -/
def yIndex (bounds : CityBounds) (gridSize : ℤ) (lat : ℚ) : ℤ :=
  min (jsFloor ((lat - bounds.south) / latStep bounds gridSize)) (gridSize - 1)

/-- JavaScript's `toLowerCase`, modelled as a map of `Char.toLower` over the
character list.  (Lean's own `String.toLower` is defined by position-based
recursion that the kernel cannot unfold; this structural map is the same
operation.) -/
def jsToLower (s : String) : String := ⟨s.data.map Char.toLower⟩

/-- Predicate `building.current_use && building.current_use.toLowerCase().includes('residential')`
(route line 165).  A `null` field is falsy; the empty string is also falsy in
JS, but `''.includes('residential')` is `false` anyway, so the two readings
agree. -/
def isResidential (use : Option String) : Bool :=
  match use with
  | none => false
  | some s => (jsToLower s).containsSubstr "residential"

/-- The freshly created cell of route lines 145–156: all counters zeroed,
`avgConstructionYear = null`, centers derived from bounds and indices. -/
def newCell (bounds : CityBounds) (gridSize : ℤ) (x y : ℤ) : GridCell :=
  { x := x
    y := y
    centerLat := bounds.south + ((y : ℚ) + 0.5) * latStep bounds gridSize
    centerLng := bounds.west + ((x : ℚ) + 0.5) * lngStep bounds gridSize
    buildingCount := 0
    totalApartments := 0
    avgApartments := 0
    avgConstructionYear := none
    residentialCount := 0
    densityScore := 0 }

/-- Route lines 161–179: fold one building into a cell.
`buildingCount` is incremented first (line 161), so the running-average
divisor (line 176) is the count *after* the increment.
`building.total_apartments || 0` treats `null` as `0` (a stored `0` is falsy
in JS but contributes `0` either way).  A `null` `beginning_year` is falsy;
`0` is falsy but also fails `> 1800`, so truthiness reduces to the range test
on the present value.  The running average is wrapped in `Math.round`
(line 175). -/
def updateCell (currentYear : ℚ) (cell : GridCell) (b : Building) : GridCell :=
  let count := cell.buildingCount + 1
  let newAvg :=
    match b.beginning_year with
    | some yr =>
      if 1800 < yr ∧ yr ≤ currentYear then
        match cell.avgConstructionYear with
        | none => some yr
        | some old => some (jsRound (old + (yr - old) / (count : ℚ)))
      else cell.avgConstructionYear
    | none => cell.avgConstructionYear
  { cell with
    buildingCount := count
    totalApartments := cell.totalApartments + b.total_apartments.getD 0
    residentialCount := cell.residentialCount + (if isResidential b.current_use then 1 else 0)
    avgConstructionYear := newAvg }

/-- Lookup `gridMap.get(cellKey)` and `gridMap.set(cellKey, cell)` of route
lines 140–158: update the (unique) cell carrying the key `(x, y)` in place,
or append a fresh cell at the end (JS `Map` preserves insertion order). -/
def updateOrAppend (currentYear : ℚ) (bounds : CityBounds) (gridSize : ℤ)
    (x y : ℤ) (b : Building) : List GridCell → List GridCell
  | [] => [updateCell currentYear (newCell bounds gridSize x y) b]
  | c :: cs =>
    if c.x = x ∧ c.y = y then updateCell currentYear c b :: cs
    else c :: updateOrAppend currentYear bounds gridSize x y b cs

/-- One iteration of the binning loop: compute the indices of `b`
(route lines 137–138) and fold it into the cell map. -/
def binStep (currentYear : ℚ) (bounds : CityBounds) (gridSize : ℤ)
    (cells : List GridCell) (b : Building) : List GridCell :=
  updateOrAppend currentYear bounds gridSize
    (xIndex bounds gridSize b.longitude) (yIndex bounds gridSize b.latitude) b cells

/-- The binning loop `buildings.forEach(...)` of route lines 132–187:
a left fold of `binStep` over the fetched rows, starting from the empty map. -/
def binBuildings (currentYear : ℚ) (bounds : CityBounds) (gridSize : ℤ)
    (buildings : List Building) : List GridCell :=
  buildings.foldl (binStep currentYear bounds gridSize) []

/-- Route lines 195–203: derived metrics.  `avgApartments` is the apartment
sum over the building count rounded to one decimal (or `0` for an empty
cell — unreachable, cells are created lazily); `densityScore` is the
apartment sum. -/
def finalizeCell (c : GridCell) : GridCell :=
  { c with
    avgApartments :=
      if 0 < c.buildingCount then jsRound1 (c.totalApartments / (c.buildingCount : ℚ)) else 0
    densityScore := c.totalApartments }

/-- Sorting `gridCells.sort((a, b) => b.densityScore - a.densityScore)`
(route line 206): descending by density score. -/
def sortByDensity (cells : List GridCell) : List GridCell :=
  cells.mergeSort (fun a b => b.densityScore ≤ a.densityScore)

/-- The whole aggregation pipeline for a non-empty fetch:
bin, finalize, sort (route lines 124–206). -/
def densityGrid (currentYear : ℚ) (bounds : CityBounds) (gridSize : ℤ)
    (buildings : List Building) : List GridCell :=
  sortByDensity ((binBuildings currentYear bounds gridSize buildings).map finalizeCell)

/-- Summary `gridCells[0]?.densityScore || 0` (route line 209): the density score of
the first sorted cell.  A score of `0` is falsy and `|| 0` maps it to the
same value, so `getD 0` is faithful. -/
def maxDensityOf (cells : List GridCell) : ℚ :=
  ((cells.head?).map GridCell.densityScore).getD 0

/-- Response metadata (route lines 114–119 and 219–226).  The empty-input
branch includes neither `maxDensity` nor `bounds`, hence the `Option`s. -/
structure Metadata where
  totalBuildings : ℕ
  gridSize : ℤ
  gridCells : ℕ
  maxDensity : Option ℚ
  bounds : Option CityBounds
  deriving DecidableEq

/-- The JSON responses the route can produce: `NextResponse.json({ error },
{ status })` or the success payload. -/
inductive ApiResponse where
  | error (message : String) (status : ℕ)
  | success (city : String) (grid : List GridCell) (metadata : Metadata)
  deriving DecidableEq

/-- Outcome of the Supabase query (route lines 81–104): either the fetched
rows or a database error message. -/
inductive FetchResult where
  | ok (buildings : List Building)
  | fail (message : String)
  deriving DecidableEq

/-- Parameter `searchParams.get('city')?.toLowerCase() || 'sevilla'` (route line 50):
a missing parameter, or one that lower-cases to the empty string (falsy),
defaults to `sevilla`. -/
def cityName (cityParam : Option String) : String :=
  match cityParam with
  | none => "sevilla"
  | some s => if jsToLower s = "" then "sevilla" else jsToLower s

/-- The `GET` handler (route lines 46–236) for requests whose `gridSize`
parameter parses to an actual integer; the `NaN` path of `parseInt` is
modelled separately in the `Js` namespace.  Validation of the city and of
`gridSize` happens before the fetch result is inspected; the empty-input
branch returns early with a metadata object that carries neither
`maxDensity` nor `bounds`. -/
def GET (cityParam : Option String) (gridSize : ℤ) (currentYear : ℚ)
    (fetch : FetchResult) : ApiResponse :=
  let city := cityName cityParam
  match CITY_BOUNDS city with
  | none => .error "Unsupported city. Available: sevilla, madrid, barcelona" 400
  | some bounds =>
    if gridSize < 16 ∨ gridSize > 80 then
      .error "gridSize must be between 16 and 80" 400
    else
      match fetch with
      | .fail msg => .error ("Database query failed: " ++ msg) 500
      | .ok buildings =>
        if buildings.length = 0 then
          .success city []
            { totalBuildings := 0, gridSize := gridSize, gridCells := 0
              maxDensity := none, bounds := none }
        else
          let grid := densityGrid currentYear bounds gridSize buildings
          .success city grid
            { totalBuildings := buildings.length, gridSize := gridSize
              gridCells := grid.length, maxDensity := some (maxDensityOf grid)
              bounds := some bounds }

/-- Total number of records binned into a cell list. -/
def recordSum (cells : List GridCell) : ℕ :=
  (cells.map GridCell.buildingCount).sum

/-- The `sevilla` entry of the registry, named for use in concrete runs. -/
def sevilla : CityBounds :=
  { north := 37.45, south := 37.32, east := -5.85, west := -6.05 }

/-- Invariant carried by every cell of the binning map: at least one record
was binned into it, and the residential counter never exceeds the record
counter. -/
def cellInv (c : GridCell) : Prop :=
  0 < c.buildingCount ∧ c.residentialCount ≤ c.buildingCount

/-- Test region for witnesses and counterexamples:
`south = 0`, `north = 10`, `west = 0`, `east = 10`. -/
def testBounds : CityBounds := { north := 10, south := 0, east := 10, west := 0 }

/-- A single record with no attributes at the test region's south-west
corner, where both cell indices evaluate to `0`. -/
def testBuilding : Building := ⟨0, 0, none, none, none⟩

/-!
The `NaN` grid-size path (towards C9).

A `parseInt` of a non-numeric `gridSize` parameter yields `NaN`; every
comparison with `NaN` is `false`, so the range check `gridSize < 16 ||
gridSize > 80` does not reject, and the handler goes on to compute `NaN`
grid steps and `NaN` cell indices.  `NaN` is modelled as `none`; infinities
never arise on this path (the only divisions are by a `NaN` step). -/

namespace Js

/-- A JavaScript number that may be `NaN` (`none`). -/
abbrev Num := Option ℚ

/-- Subtraction with `NaN` propagation. -/
def sub : Num → Num → Num
  | some a, some b => some (a - b)
  | _, _ => none

/-- Division with `NaN` propagation.  A zero divisor would be `±Infinity`
in JS; it is mapped to `none` here but is unreachable on the modelled path
(the registry's bounds are non-degenerate, and otherwise the divisor is
already `NaN`). -/
def div : Num → Num → Num
  | some a, some b => if b = 0 then none else some (a / b)
  | _, _ => none

/-- The `Math.floor` call with `NaN` propagation. -/
def floorN : Num → Option ℤ
  | some a => some (jsFloor a)
  | none => none

/-- The `Math.min` call on integers-or-`NaN`: `Math.min(NaN, x) = NaN`. -/
def minN : Option ℤ → Option ℤ → Option ℤ
  | some a, some b => some (min a b)
  | _, _ => none

/-- Template-string rendering of a cell index: `NaN` prints as `"NaN"`,
an integer as its decimal representation. -/
def render : Option ℤ → String
  | none => "NaN"
  | some i => toString i

/-- Model of `parseInt(s)` for base-10 inputs without surrounding
whitespace: an optional sign followed by the leading run of digits; `NaN`
(`none`) when no digit leads. -/
def parseInt (s : String) : Option ℤ :=
  let (sign, rest) :=
    match s.data with
    | '-' :: r => ((-1 : ℤ), r)
    | '+' :: r => ((1 : ℤ), r)
    | cs => ((1 : ℤ), cs)
  let digits := rest.takeWhile Char.isDigit
  if digits.isEmpty then none
  else some (sign * digits.foldl (fun acc c => acc * 10 + ((c.toNat : ℤ) - 48)) 0)

/-- The `gridSize < 16 || gridSize > 80` check of route line 61 under JS
comparison semantics: both comparisons are `false` for `NaN`, so a `NaN`
`gridSize` is not rejected. -/
def gridSizeRejected (g : Option ℤ) : Bool :=
  match g with
  | some n => decide (n < 16) || decide (80 < n)
  | none => false

/-- Step `lngStep` (route line 125) with a possibly-`NaN` `gridSize`. -/
def lngStepN (bounds : CityBounds) (g : Option ℤ) : Num :=
  div (some (bounds.east - bounds.west)) (g.map fun n => (n : ℚ))

/-- Step `latStep` (route line 124) with a possibly-`NaN` `gridSize`. -/
def latStepN (bounds : CityBounds) (g : Option ℤ) : Num :=
  div (some (bounds.north - bounds.south)) (g.map fun n => (n : ℚ))

/-- Route line 137 under `NaN` semantics. -/
def xIndexN (bounds : CityBounds) (g : Option ℤ) (lng : ℚ) : Option ℤ :=
  minN (floorN (div (sub (some lng) (some bounds.west)) (lngStepN bounds g)))
    (g.map fun n => n - 1)

/-- Route line 138 under `NaN` semantics. -/
def yIndexN (bounds : CityBounds) (g : Option ℤ) (lat : ℚ) : Option ℤ :=
  minN (floorN (div (sub (some lat) (some bounds.south)) (latStepN bounds g)))
    (g.map fun n => n - 1)

/-- The cell key `` `${xIndex},${yIndex}` `` of route line 140. -/
def cellKey (bounds : CityBounds) (g : Option ℤ) (lat lng : ℚ) : String :=
  render (xIndexN bounds g lng) ++ "," ++ render (yIndexN bounds g lat)

end Js

theorem CITY_BOUNDS_sevilla : CITY_BOUNDS "sevilla" = some sevilla := rfl

/-! Elementary facts about the embedded arithmetic -/

theorem jsFloor_eq_floor (q : ℚ) : jsFloor q = ⌊q⌋ := by
  rw [jsFloor, Rat.floor_def', ← Rat.floor_def]

theorem jsFloor_eq {q : ℚ} {z : ℤ} (h1 : (z : ℚ) ≤ q) (h2 : q < z + 1) :
    jsFloor q = z := by
  rw [jsFloor_eq_floor]
  exact Int.floor_eq_iff.mpr ⟨h1, h2⟩

theorem jsRound_eq {q : ℚ} {z : ℤ} (h1 : (z : ℚ) ≤ q + 1/2) (h2 : q + 1/2 < z + 1) :
    jsRound q = (z : ℚ) := by
  rw [jsRound, jsFloor_eq h1 h2]

theorem jsRound1_eq {q : ℚ} {z : ℤ} (h1 : (z : ℚ) ≤ q * 10 + 1/2) (h2 : q * 10 + 1/2 < z + 1) :
    jsRound1 q = (z : ℚ) / 10 := by
  rw [jsRound1, jsFloor_eq h1 h2]

@[simp] theorem updateCell_x (cy : ℚ) (c : GridCell) (b : Building) :
    (updateCell cy c b).x = c.x := rfl

@[simp] theorem updateCell_y (cy : ℚ) (c : GridCell) (b : Building) :
    (updateCell cy c b).y = c.y := rfl

@[simp] theorem updateCell_buildingCount (cy : ℚ) (c : GridCell) (b : Building) :
    (updateCell cy c b).buildingCount = c.buildingCount + 1 := rfl

@[simp] theorem updateCell_totalApartments (cy : ℚ) (c : GridCell) (b : Building) :
    (updateCell cy c b).totalApartments = c.totalApartments + b.total_apartments.getD 0 := rfl

@[simp] theorem updateCell_residentialCount (cy : ℚ) (c : GridCell) (b : Building) :
    (updateCell cy c b).residentialCount
      = c.residentialCount + (if isResidential b.current_use then 1 else 0) := rfl

@[simp] theorem newCell_x (bounds : CityBounds) (g x y : ℤ) : (newCell bounds g x y).x = x := rfl

@[simp] theorem newCell_y (bounds : CityBounds) (g x y : ℤ) : (newCell bounds g x y).y = y := rfl

@[simp] theorem newCell_buildingCount (bounds : CityBounds) (g x y : ℤ) :
    (newCell bounds g x y).buildingCount = 0 := rfl

@[simp] theorem newCell_totalApartments (bounds : CityBounds) (g x y : ℤ) :
    (newCell bounds g x y).totalApartments = 0 := rfl

@[simp] theorem newCell_residentialCount (bounds : CityBounds) (g x y : ℤ) :
    (newCell bounds g x y).residentialCount = 0 := rfl

@[simp] theorem newCell_avgConstructionYear (bounds : CityBounds) (g x y : ℤ) :
    (newCell bounds g x y).avgConstructionYear = none := rfl

@[simp] theorem finalizeCell_x (c : GridCell) : (finalizeCell c).x = c.x := rfl

@[simp] theorem finalizeCell_y (c : GridCell) : (finalizeCell c).y = c.y := rfl

@[simp] theorem finalizeCell_buildingCount (c : GridCell) :
    (finalizeCell c).buildingCount = c.buildingCount := rfl

@[simp] theorem finalizeCell_totalApartments (c : GridCell) :
    (finalizeCell c).totalApartments = c.totalApartments := rfl

@[simp] theorem finalizeCell_residentialCount (c : GridCell) :
    (finalizeCell c).residentialCount = c.residentialCount := rfl

@[simp] theorem finalizeCell_avgConstructionYear (c : GridCell) :
    (finalizeCell c).avgConstructionYear = c.avgConstructionYear := rfl

@[simp] theorem binBuildings_nil (cy : ℚ) (bounds : CityBounds) (g : ℤ) :
    binBuildings cy bounds g [] = [] := rfl

/-- When the region is degenerate in neither direction and the grid size is
positive, the north-east corner's raw (unclamped) position is exactly
`gridSize`, so `Math.min` clamps both indices to `gridSize - 1`. -/
theorem xIndex_east (bounds : CityBounds) (g : ℤ)
    (hW : bounds.west < bounds.east) (hg : 1 ≤ g) :
    xIndex bounds g bounds.east = g - 1 := by
  have hd : bounds.east - bounds.west ≠ 0 := sub_ne_zero.mpr (ne_of_gt hW)
  have hgq : (g : ℚ) ≠ 0 := Int.cast_ne_zero.mpr (by omega)
  have hq : (bounds.east - bounds.west) / lngStep bounds g = (g : ℚ) := by
    rw [lngStep]
    field_simp
  have hfl : jsFloor ((g : ℚ)) = g := by
    rw [jsFloor_eq_floor, Int.floor_intCast]
  rw [xIndex, hq, hfl]
  omega

theorem yIndex_north (bounds : CityBounds) (g : ℤ)
    (hS : bounds.south < bounds.north) (hg : 1 ≤ g) :
    yIndex bounds g bounds.north = g - 1 := by
  have hd : bounds.north - bounds.south ≠ 0 := sub_ne_zero.mpr (ne_of_gt hS)
  have hgq : (g : ℚ) ≠ 0 := Int.cast_ne_zero.mpr (by omega)
  have hq : (bounds.north - bounds.south) / latStep bounds g = (g : ℚ) := by
    rw [latStep]
    field_simp
  have hfl : jsFloor ((g : ℚ)) = g := by
    rw [jsFloor_eq_floor, Int.floor_intCast]
  rw [yIndex, hq, hfl]
  omega

end DensityGrid

namespace DensityGrid

/-- Claim C2: a record lying exactly on the north-east corner of the region
(`latitude = bounds.north`, `longitude = bounds.east`) is binned — not
rejected — and lands in the last cell `(gridSize-1, gridSize-1)`: aggregating
just that record produces exactly one cell, indexed `(gridSize-1, gridSize-1)`. -/
theorem corner_lands_in_last_cell (cy : ℚ) (bounds : CityBounds) (g : ℤ) (b : Building)
    (hW : bounds.west < bounds.east) (hS : bounds.south < bounds.north) (hg : 1 ≤ g)
    (hlat : b.latitude = bounds.north) (hlng : b.longitude = bounds.east) :
    (binBuildings cy bounds g [b]).map (fun c => (c.x, c.y)) = [(g - 1, g - 1)] := by
  simp [binBuildings, binStep, updateOrAppend, hlat, hlng,
    xIndex_east bounds g hW hg, yIndex_north bounds g hS hg]

/-- Witness for C2 at a concrete input: bounds `south=0, north=10, west=0,
east=10`, `gridSize = 16`, record at the corner `(10, 10)` lands in `(15, 15)`. -/
theorem corner_lands_in_last_cell_witness :
    (binBuildings 2025 ⟨10, 0, 10, 0⟩ 16 [⟨10, 10, none, none, none⟩]).map
        (fun c => (c.x, c.y)) = [(15, 15)] := by
  have h := corner_lands_in_last_cell 2025 ⟨10, 0, 10, 0⟩ 16 ⟨10, 10, none, none, none⟩
    (by norm_num) (by norm_num) (by norm_num) rfl rfl
  norm_num at h
  exact h

/-- Claim C1 (the code violates the claimed two-sided clamp; the spec itself
flags the missing lower bound as a latent bug in the source).  Aggregating a
record whose longitude `-6.06` lies below `sevilla`'s west bound `-6.05`
with `gridSize = 40` produces a cell with `x = -2`, which is *not* in
`[0, gridSize)`: the binning clamps only at `gridSize - 1`, never at `0`. -/
theorem below_west_record_gets_negative_x :
    (densityGrid 2025 sevilla 40 [⟨37.4, -6.06, none, none, none⟩]).map (fun c => (c.x, c.y))
        = [(-2, 24)]
    ∧ ¬ (0 : ℤ) ≤ -2 := by
  have hx : xIndex sevilla 40 (-6.06) = -2 := by
    have harg : ((-6.06 : ℚ) - sevilla.west) / lngStep sevilla 40 = -2 := by
      norm_num [lngStep, sevilla]
    rw [xIndex, harg, jsFloor_eq (z := -2) (by norm_num) (by norm_num)]
    omega
  have hy : yIndex sevilla 40 (37.4 : ℚ) = 24 := by
    have harg : ((37.4 : ℚ) - sevilla.south) / latStep sevilla 40 = 320/13 := by
      norm_num [latStep, sevilla]
    rw [yIndex, harg, jsFloor_eq (z := 24) (by norm_num) (by norm_num)]
    omega
  refine ⟨?_, by norm_num⟩
  simp [densityGrid, sortByDensity, binBuildings, binStep, updateOrAppend, hx, hy,
    List.mergeSort_singleton]

/-! Record-count bookkeeping (C5) -/

theorem recordSum_updateOrAppend (cy : ℚ) (bounds : CityBounds) (g x y : ℤ)
    (b : Building) (cells : List GridCell) :
    recordSum (updateOrAppend cy bounds g x y b cells) = recordSum cells + 1 := by
  induction cells with
  | nil => simp [updateOrAppend, recordSum]
  | cons c cs ih =>
    rw [updateOrAppend]
    split
    · simp [recordSum]
      omega
    · simp only [recordSum, List.map_cons, List.sum_cons] at ih ⊢
      omega

theorem recordSum_binStep (cy : ℚ) (bounds : CityBounds) (g : ℤ)
    (cells : List GridCell) (b : Building) :
    recordSum (binStep cy bounds g cells b) = recordSum cells + 1 :=
  recordSum_updateOrAppend ..

theorem recordSum_binFold (cy : ℚ) (bounds : CityBounds) (g : ℤ)
    (bs : List Building) :
    ∀ cells : List GridCell,
      recordSum (bs.foldl (binStep cy bounds g) cells) = recordSum cells + bs.length := by
  induction bs with
  | nil => simp
  | cons b bs ih =>
    intro cells
    rw [List.foldl_cons, ih, recordSum_binStep]
    simp only [List.length_cons]
    omega

theorem recordSum_sortByDensity (cells : List GridCell) :
    recordSum (sortByDensity cells) = recordSum cells :=
  ((List.mergeSort_perm cells _).map GridCell.buildingCount).sum_eq

theorem recordSum_map_finalizeCell (cells : List GridCell) :
    recordSum (cells.map finalizeCell) = recordSum cells := by
  simp [recordSum, List.map_map, Function.comp_def]

/-- Claim C5: every input record lands in exactly one cell, so the record
counts of the result cells sum to `totalRecords` — in particular the sum is
`≤ totalRecords`.  The handler itself never skips a record (the fetch query
already excludes null coordinates and the loop has no skip path), so the
"equality iff no record was skipped for invalid coordinates" reading holds
with both sides always true. -/
theorem recordSum_eq_totalRecords (cy : ℚ) (bounds : CityBounds) (g : ℤ)
    (bs : List Building) :
    recordSum (densityGrid cy bounds g bs) ≤ bs.length
    ∧ recordSum (densityGrid cy bounds g bs) = bs.length := by
  have h : recordSum (densityGrid cy bounds g bs) = bs.length := by
    rw [densityGrid, recordSum_sortByDensity, recordSum_map_finalizeCell, binBuildings,
      recordSum_binFold]
    simp [recordSum]
  exact ⟨le_of_eq h, h⟩

/-! Per-cell invariant on the counters (C10, also feeds C8) -/

theorem cellInv_updateCell (cy : ℚ) (c : GridCell) (b : Building)
    (h : c.residentialCount ≤ c.buildingCount) : cellInv (updateCell cy c b) := by
  constructor
  · simp
  · simp only [updateCell_residentialCount, updateCell_buildingCount]
    split <;> omega

theorem cellInv_updateOrAppend (cy : ℚ) (bounds : CityBounds) (g x y : ℤ)
    (b : Building) (cells : List GridCell) (h : ∀ c ∈ cells, cellInv c) :
    ∀ c ∈ updateOrAppend cy bounds g x y b cells, cellInv c := by
  induction cells with
  | nil =>
    intro c hc
    simp only [updateOrAppend, List.mem_singleton] at hc
    subst hc
    exact cellInv_updateCell cy _ b (by simp)
  | cons c0 cs ih =>
    intro c hc
    rw [updateOrAppend] at hc
    split at hc
    · rcases List.mem_cons.mp hc with rfl | hmem
      · exact cellInv_updateCell cy c0 b (h c0 (List.mem_cons_self ..)).2
      · exact h c (List.mem_cons_of_mem _ hmem)
    · rcases List.mem_cons.mp hc with rfl | hmem
      · exact h c (List.mem_cons_self ..)
      · exact ih (fun d hd => h d (List.mem_cons_of_mem _ hd)) c hmem

theorem cellInv_binFold (cy : ℚ) (bounds : CityBounds) (g : ℤ) (bs : List Building) :
    ∀ cells : List GridCell, (∀ c ∈ cells, cellInv c) →
      ∀ c ∈ bs.foldl (binStep cy bounds g) cells, cellInv c := by
  induction bs with
  | nil => intro cells h; simpa using h
  | cons b bs ih =>
    intro cells h
    rw [List.foldl_cons]
    exact ih _ (cellInv_updateOrAppend cy bounds g _ _ b cells h)

theorem cellInv_densityGrid (cy : ℚ) (bounds : CityBounds) (g : ℤ)
    (bs : List Building) : ∀ c ∈ densityGrid cy bounds g bs,
      0 < c.buildingCount ∧ c.residentialCount ≤ c.buildingCount := by
  intro c hc
  rw [densityGrid, sortByDensity] at hc
  have hc' := (List.mergeSort_perm _ _).mem_iff.mp hc
  rcases List.mem_map.mp hc' with ⟨c', hc'', rfl⟩
  have := cellInv_binFold cy bounds g bs [] (by simp) c' hc''
  simpa [cellInv] using this

/-- Claim C10: in every result cell, the category counter `residentialCount`
is at most the record counter `buildingCount`: the loop increments
`residentialCount` only in an iteration that also increments
`buildingCount`, so the inequality is preserved by every aggregation step. -/
theorem residentialCount_le_buildingCount (cy : ℚ) (bounds : CityBounds) (g : ℤ)
    (bs : List Building) :
    ∀ c ∈ densityGrid cy bounds g bs, c.residentialCount ≤ c.buildingCount :=
  fun c hc => (cellInv_densityGrid cy bounds g bs c hc).2

/-! Concrete index evaluations over the test fixtures -/

theorem xIndex_testBounds_zero : xIndex testBounds 16 0 = 0 := by
  have harg : ((0 : ℚ) - testBounds.west) / lngStep testBounds 16 = 0 := by
    norm_num [lngStep, testBounds]
  rw [xIndex, harg, jsFloor_eq (z := 0) (by norm_num) (by norm_num)]
  omega

theorem yIndex_testBounds_zero : yIndex testBounds 16 0 = 0 := by
  have harg : ((0 : ℚ) - testBounds.south) / latStep testBounds 16 = 0 := by
    norm_num [latStep, testBounds]
  rw [yIndex, harg, jsFloor_eq (z := 0) (by norm_num) (by norm_num)]
  omega

theorem densityGrid_testBuilding :
    densityGrid 2025 testBounds 16 [testBuilding]
      = [finalizeCell (updateCell 2025 (newCell testBounds 16 0 0) testBuilding)] := by
  simp [densityGrid, sortByDensity, binBuildings, binStep, updateOrAppend, testBuilding,
    xIndex_testBounds_zero, yIndex_testBounds_zero, List.mergeSort_singleton]

/-! Rounded per-cell average (C8) -/

theorem abs_jsRound1_sub_le (q : ℚ) : |jsRound1 q - q| ≤ 1/20 := by
  rw [jsRound1, jsFloor_eq_floor]
  have h1 : (⌊q * 10 + 1/2⌋ : ℚ) ≤ q * 10 + 1/2 := Int.floor_le _
  have h2 : q * 10 + 1/2 - 1 < (⌊q * 10 + 1/2⌋ : ℚ) := Int.sub_one_lt_floor _
  rw [abs_le]
  constructor <;> linarith

theorem jsRound1_mul_close (S : ℚ) (n : ℕ) (hn : 0 < n) :
    |jsRound1 (S / (n : ℚ)) * (n : ℚ) - S| ≤ (n : ℚ) / 20 := by
  have hq : (n : ℚ) ≠ 0 := by positivity
  have hSn : S / (n : ℚ) * (n : ℚ) = S := div_mul_cancel₀ S hq
  have h := abs_jsRound1_sub_le (S / (n : ℚ))
  have hn' : (0 : ℚ) ≤ (n : ℚ) := by positivity
  calc |jsRound1 (S / (n : ℚ)) * (n : ℚ) - S|
      = |(jsRound1 (S / (n : ℚ)) - S / (n : ℚ)) * (n : ℚ)| := by rw [sub_mul, hSn]
    _ = |jsRound1 (S / (n : ℚ)) - S / (n : ℚ)| * (n : ℚ) := by
        rw [abs_mul, abs_of_nonneg hn']
    _ ≤ 1/20 * (n : ℚ) := mul_le_mul_of_nonneg_right h hn'
    _ = (n : ℚ) / 20 := by ring

/-- Claim C8 (amended: the product matches the sum only up to the one-decimal
rounding, i.e. within `recordCount / 20`, not within floating-point
tolerance).  Every result cell has a positive record count, its
`avgApartments` is the apartment sum over the record count rounded to one
decimal place, and `avgApartments * buildingCount` is within
`buildingCount / 20` of `totalApartments`. -/
theorem avgApartments_rounding_of_mem (cy : ℚ) (bounds : CityBounds) (g : ℤ)
    (bs : List Building) :
    ∀ c ∈ densityGrid cy bounds g bs,
      0 < c.buildingCount
      ∧ c.avgApartments = jsRound1 (c.totalApartments / (c.buildingCount : ℚ))
      ∧ |c.avgApartments * (c.buildingCount : ℚ) - c.totalApartments|
          ≤ (c.buildingCount : ℚ) / 20 := by
  intro c hc
  rw [densityGrid, sortByDensity] at hc
  have hc' := (List.mergeSort_perm _ _).mem_iff.mp hc
  rcases List.mem_map.mp hc' with ⟨c', hmem, rfl⟩
  have hinv := cellInv_binFold cy bounds g bs [] (by simp) c' hmem
  have hpos : 0 < c'.buildingCount := hinv.1
  refine ⟨by simpa using hpos, ?_, ?_⟩
  · simp [finalizeCell, if_pos hpos]
  · simp only [finalizeCell_buildingCount, finalizeCell_totalApartments]
    rw [show (finalizeCell c').avgApartments
        = jsRound1 (c'.totalApartments / (c'.buildingCount : ℚ)) from by
      simp [finalizeCell, if_pos hpos]]
    exact jsRound1_mul_close c'.totalApartments c'.buildingCount hpos

/-- Witness for C8 at a concrete cell: the single cell produced by
aggregating `testBuilding` over `testBounds`. -/
theorem avgApartments_rounding_witness :
    0 < (finalizeCell (updateCell 2025 (newCell testBounds 16 0 0) testBuilding)).buildingCount
    ∧ (finalizeCell (updateCell 2025 (newCell testBounds 16 0 0) testBuilding)).avgApartments
        = jsRound1
            ((finalizeCell (updateCell 2025 (newCell testBounds 16 0 0)
                testBuilding)).totalApartments
              / ((finalizeCell (updateCell 2025 (newCell testBounds 16 0 0)
                  testBuilding)).buildingCount : ℚ))
    ∧ |(finalizeCell (updateCell 2025 (newCell testBounds 16 0 0)
          testBuilding)).avgApartments
        * ((finalizeCell (updateCell 2025 (newCell testBounds 16 0 0)
            testBuilding)).buildingCount : ℚ)
        - (finalizeCell (updateCell 2025 (newCell testBounds 16 0 0)
            testBuilding)).totalApartments|
        ≤ ((finalizeCell (updateCell 2025 (newCell testBounds 16 0 0)
            testBuilding)).buildingCount : ℚ) / 20 :=
  avgApartments_rounding_of_mem 2025 testBounds 16 [testBuilding] _
    (by rw [densityGrid_testBuilding]; exact List.mem_singleton.mpr rfl)

/-- Claim C8, counterexample: aggregating three records into one cell with
apartment counts `1, null, null` gives `recordCount = 3`,
`attributeSum = 1`, `averageAttribute = round1(1/3) = 0.3`; the product
`0.3 * 3 = 0.9` differs from the sum `1` by `1/10`, which is far beyond any
floating-point tolerance (double-precision relative error is about
`2^-52`; even a generous `2^-20` is exceeded). -/
theorem avgApartments_product_far_from_sum :
    (densityGrid 2025 testBounds 16
        [⟨0, 0, some 1, none, none⟩, ⟨0, 0, none, none, none⟩,
          ⟨0, 0, none, none, none⟩]).map
      (fun c => (c.avgApartments, c.totalApartments, c.buildingCount)) = [(3/10, 1, 3)]
    ∧ |(3/10 : ℚ) * 3 - 1| = 1/10
    ∧ (1/2^20 : ℚ) < 1/10 := by
  refine ⟨?_, by norm_num, by norm_num⟩
  have hr : jsRound1 ((1 : ℚ) / 3) = 3/10 := by
    have h := jsRound1_eq (q := (1 : ℚ)/3) (z := 3) (by norm_num) (by norm_num)
    simpa using h
  norm_num [densityGrid, sortByDensity, binBuildings, binStep, updateOrAppend, updateCell,
    newCell, isResidential, finalizeCell, xIndex_testBounds_zero, yIndex_testBounds_zero,
    List.mergeSort_singleton, hr]

/-- Witness for C10 at the same concrete cell. -/
theorem residentialCount_le_buildingCount_witness :
    (finalizeCell (updateCell 2025 (newCell testBounds 16 0 0) testBuilding)).residentialCount
      ≤ (finalizeCell (updateCell 2025 (newCell testBounds 16 0 0)
          testBuilding)).buildingCount :=
  residentialCount_le_buildingCount 2025 testBounds 16 [testBuilding] _
    (by rw [densityGrid_testBuilding]; exact List.mem_singleton.mpr rfl)

/-! Running construction-year average (C3, C4) -/

/-- The `avgConstructionYear` field after one update, unfolded
(route lines 170–179). -/
theorem updateCell_avgConstructionYear (cy : ℚ) (c : GridCell) (b : Building) :
    (updateCell cy c b).avgConstructionYear
      = match b.beginning_year with
        | some yr =>
          if 1800 < yr ∧ yr ≤ cy then
            match c.avgConstructionYear with
            | none => some yr
            | some old => some (jsRound (old + (yr - old) / ((c.buildingCount + 1 : ℕ) : ℚ)))
          else c.avgConstructionYear
        | none => c.avgConstructionYear := rfl

/-- Claim C3 (amended: the code wraps every running-mean step in `Math.round`,
so the cell's average is updated to `round(oldAvg + (value - oldAvg) /
recordCount)` when `oldAvg` is non-null, else to `value`).  The divisor is
the record count *after* the increment of this record, as the claim states. -/
theorem runningYearAverage_update (cy : ℚ) (c : GridCell) (b : Building) (yr : ℚ)
    (hb : b.beginning_year = some yr) (h1 : 1800 < yr) (h2 : yr ≤ cy) :
    (updateCell cy c b).buildingCount = c.buildingCount + 1
    ∧ (updateCell cy c b).avgConstructionYear
        = some (match c.avgConstructionYear with
            | none => yr
            | some old => jsRound (old + (yr - old) / ((c.buildingCount + 1 : ℕ) : ℚ))) := by
  refine ⟨rfl, ?_⟩
  have hstep : (updateCell cy c b).avgConstructionYear
      = if 1800 < yr ∧ yr ≤ cy then
          match c.avgConstructionYear with
          | none => some yr
          | some old => some (jsRound (old + (yr - old) / ((c.buildingCount + 1 : ℕ) : ℚ)))
        else c.avgConstructionYear := by
    rw [updateCell_avgConstructionYear, hb]
  rw [hstep, if_pos ⟨h1, h2⟩]
  cases hA : c.avgConstructionYear <;> rfl

/-- Witness for C3: a fresh cell (`avgConstructionYear = null`) receiving a
record with year `2000`. -/
theorem runningYearAverage_update_witness :
    (updateCell 2025 (newCell testBounds 16 0 0)
        ⟨0, 0, none, none, some 2000⟩).buildingCount
      = (newCell testBounds 16 0 0).buildingCount + 1
    ∧ (updateCell 2025 (newCell testBounds 16 0 0)
        ⟨0, 0, none, none, some 2000⟩).avgConstructionYear
        = some (match (newCell testBounds 16 0 0).avgConstructionYear with
            | none => (2000 : ℚ)
            | some old =>
              jsRound (old + (2000 - old)
                / (((newCell testBounds 16 0 0).buildingCount + 1 : ℕ) : ℚ))) :=
  runningYearAverage_update 2025 (newCell testBounds 16 0 0) ⟨0, 0, none, none, some 2000⟩
    2000 rfl (by norm_num) (by norm_num)

/-- Claim C3, counterexample: years `2000` then `2001` into one cell: the code
yields `round(2000 + (2001 - 2000)/2) = 2001`, not the exact Welford value
`2000.5` the claim demands. -/
theorem runningYearAverage_not_exact :
    (binBuildings 2025 testBounds 16
        [⟨0, 0, none, none, some 2000⟩, ⟨0, 0, none, none, some 2001⟩]).map
      (fun c => c.avgConstructionYear) = [some 2001]
    ∧ (2001 : ℚ) ≠ 2000 + (2001 - 2000) / 2 := by
  refine ⟨?_, by norm_num⟩
  have hr : jsRound ((4001 : ℚ) / 2) = 2001 := by
    have h := jsRound_eq (q := (4001 : ℚ)/2) (z := 2001) (by norm_num) (by norm_num)
    simpa using h
  norm_num [binBuildings, binStep, updateOrAppend, updateCell, newCell, isResidential,
    xIndex_testBounds_zero, yIndex_testBounds_zero, hr]

/-- Claim C4: feeding exactly three records with years `[2000, 2010, 2020]`
into a single cell yields a running average of exactly `2010` (the rounding
is invisible here because every intermediate mean is an integer). -/
theorem three_year_running_average :
    (densityGrid 2025 testBounds 16
        [⟨0, 0, none, none, some 2000⟩, ⟨0, 0, none, none, some 2010⟩,
          ⟨0, 0, none, none, some 2020⟩]).map (fun c => c.avgConstructionYear)
      = [some 2010] := by
  have hrB : jsRound ((2005 : ℚ)) = 2005 := by
    have h := jsRound_eq (q := (2005 : ℚ)) (z := 2005) (by norm_num) (by norm_num)
    simpa using h
  have hrC : jsRound ((2010 : ℚ)) = 2010 := by
    have h := jsRound_eq (q := (2010 : ℚ)) (z := 2010) (by norm_num) (by norm_num)
    simpa using h
  norm_num [densityGrid, sortByDensity, binBuildings, binStep, updateOrAppend, updateCell,
    newCell, isResidential, finalizeCell, xIndex_testBounds_zero, yIndex_testBounds_zero,
    List.mergeSort_singleton, hrB, hrC]

/-! Handler validation and the empty-input branch (C6, C7) -/

/-- Claim C6 (amended: the early-return metadata of the empty-input branch
carries *no* `maxDensity` field — it is absent, not present as `0`).  For a
valid region and valid `gridSize`, a fetch that returns zero records
succeeds (it is not an error) with `grid = []` and `gridCells = 0`. -/
theorem empty_fetch_succeeds (cityParam : Option String) (g : ℤ) (cy : ℚ)
    (bounds : CityBounds) (hcity : CITY_BOUNDS (cityName cityParam) = some bounds)
    (hg : ¬(g < 16 ∨ g > 80)) :
    GET cityParam g cy (.ok [])
      = .success (cityName cityParam) []
          { totalBuildings := 0, gridSize := g, gridCells := 0
            maxDensity := none, bounds := none } := by
  simp [GET, hcity, hg]

/-- Witness for C6: city `sevilla` (the default for a missing parameter),
`gridSize = 40`. -/
theorem empty_fetch_succeeds_witness :
    GET none 40 2025 (.ok [])
      = .success (cityName none) []
          { totalBuildings := 0, gridSize := 40, gridCells := 0
            maxDensity := none, bounds := none } :=
  empty_fetch_succeeds none 40 2025 sevilla rfl (by decide)

/-- Claim C6, counterexample: the claim demands that the empty-input response
contain `maxDensity = 0`; the code's early return (route lines 110–120)
omits the field entirely, so the metadata's `maxDensity` is `none`, not
`some 0`. -/
theorem empty_fetch_metadata_omits_maxDensity :
    GET none 40 2025 (.ok [])
      = .success "sevilla" []
          { totalBuildings := 0, gridSize := 40, gridCells := 0
            maxDensity := none, bounds := none }
    ∧ (none : Option ℚ) ≠ some 0 :=
  ⟨rfl, by simp⟩

/-- Claim C7: an unknown region name, or a `gridSize` outside `[16, 80]`,
fails the request with an `{ error }` payload and status `400`, uniformly in
the fetch result — i.e. before any records are fetched and without any
aggregation. -/
theorem invalid_request_rejected_before_fetch (cityParam : Option String) (g : ℤ)
    (cy : ℚ) (h : CITY_BOUNDS (cityName cityParam) = none ∨ g < 16 ∨ 80 < g) :
    ∃ msg, ∀ fetch, GET cityParam g cy fetch = .error msg 400 := by
  cases hcity : CITY_BOUNDS (cityName cityParam) with
  | none =>
    exact ⟨"Unsupported city. Available: sevilla, madrid, barcelona",
      fun fetch => by simp [GET, hcity]⟩
  | some bounds =>
    have hg : g < 16 ∨ g > 80 := by
      rcases h with hc | hg
      · rw [hcity] at hc; cases hc
      · exact hg
    exact ⟨"gridSize must be between 16 and 80", fun fetch => by simp [GET, hcity, hg]⟩

/-- Witness for C7: the unknown city `paris` (with any grid size) and, via a
second application inside the conjunction, the out-of-range `gridSize = 100`
for the known city `madrid`. -/
theorem invalid_request_rejected_witness :
    (∃ msg, ∀ fetch, GET (some "Paris") 40 2025 fetch = .error msg 400)
    ∧ (∃ msg, ∀ fetch, GET (some "madrid") 100 2025 fetch = .error msg 400) :=
  ⟨invalid_request_rejected_before_fetch (some "Paris") 40 2025 (Or.inl rfl),
    invalid_request_rejected_before_fetch (some "madrid") 100 2025 (by right; right; decide)⟩

/-! The `NaN` grid-size path (C9) -/

/-- Claim C9: the request `gridSize=density` is not rejected: `parseInt`
yields `NaN`, both range comparisons are `false`, and the handler proceeds
with `NaN` grid steps; every fetched record then gets the same cell key
`"NaN,NaN"`, i.e. the whole fetch is binned into a single cell. -/
theorem nan_gridSize_passes_validation_and_bins_one_cell (bs : List Building) :
    Js.parseInt "density" = none
    ∧ Js.gridSizeRejected (Js.parseInt "density") = false
    ∧ Js.lngStepN sevilla none = none
    ∧ Js.latStepN sevilla none = none
    ∧ (bs.map fun b => Js.cellKey sevilla none b.latitude b.longitude)
        = List.replicate bs.length "NaN,NaN" := by
  refine ⟨by decide, by decide, rfl, rfl, ?_⟩
  refine List.eq_replicate_iff.mpr ⟨by simp, ?_⟩
  intro s hs
  rcases List.mem_map.mp hs with ⟨b, hb, rfl⟩
  rfl

/-- Witness for C9 on a concrete fetched list of two records. -/
theorem nan_gridSize_witness :
    Js.parseInt "density" = none
    ∧ Js.gridSizeRejected (Js.parseInt "density") = false
    ∧ Js.lngStepN sevilla none = none
    ∧ Js.latStepN sevilla none = none
    ∧ ([⟨1, 2, none, none, none⟩, ⟨3, 4, some 5, none, none⟩].map
          fun b : Building => Js.cellKey sevilla none b.latitude b.longitude)
        = List.replicate 2 "NaN,NaN" :=
  nan_gridSize_passes_validation_and_bins_one_cell
    [⟨1, 2, none, none, none⟩, ⟨3, 4, some 5, none, none⟩]

end DensityGrid

